import Mathlib

/-
Verification of the price resolution and caching subsystem of a portfolio
tracker (src/app.py): the daily price cache, the tiered Alpha Vantage
quote client, the per-symbol resolution policy `ensure_price`, and the
throttled batch refresh loop of the Overview page.

The embedding mirrors the Python source:
  * prices are rationals (Python floats on decimal price strings);
  * the HTTP layer is an oracle `Network : String → HttpResult` mapping the
    query function name to a transport failure or a decoded JSON body;
  * Python exceptions become `Except FetchError`;
  * the Supabase `prices_daily` table is an append-only `List PriceRecord`;
  * the Streamlit update loop is a fold over the holdings' symbols carrying
    an explicit `BatchState` (prices, as-of map, call counter, sleeps,
    error diagnostics).
-/

namespace Portfolio

/-- Decidable equality for fetch outcomes, used to evaluate concrete runs. -/
instance {e a : Type} [DecidableEq e] [DecidableEq a] : DecidableEq (Except e a) := fun x y =>
  match x, y with
  | .ok u, .ok v => if h : u = v then .isTrue (by rw [h]) else .isFalse (by simp [h])
  | .error u, .error v => if h : u = v then .isTrue (by rw [h]) else .isFalse (by simp [h])
  | .ok _, .error _ => .isFalse (by simp)
  | .error _, .ok _ => .isFalse (by simp)

/-- Lexicographic comparison of code-point lists, the order Python uses
to compare strings. -/
def charsLt : List Char → List Char → Bool
  | [], [] => false
  | [], _ :: _ => true
  | _ :: _, [] => false
  | a :: as, b :: bs =>
    if a.toNat < b.toNat then true
    else if b.toNat < a.toNat then false
    else charsLt as bs

/-- Python `a < b` on strings. -/
def strLt (a b : String) : Bool := charsLt a.toList b.toList

/-- A calendar date, the result of `dateutil.parser.parse(...).date()`. -/
structure Date where
  year : Nat
  month : Nat
  day : Nat
deriving DecidableEq, Repr

/-- Numeric value of a decimal digit character. -/
def digitVal (c : Char) : Nat := c.toNat - 48

/-- Decimal digits to a natural number; `none` when empty or non-digit. -/
def natOfDigits? (cs : List Char) : Option Nat :=
  if cs = [] then none
  else if cs.all Char.isDigit then
    some (cs.foldl (fun a c => a * 10 + digitVal c) 0)
  else none

/-- Embeds Python `float(s)` on the plain decimal strings that occur as
Alpha Vantage price fields: optional sign, digits, optional fractional
part. Any other string raises in Python, hence `none` here. -/
def pyFloat? (s : String) : Option Rat :=
  let cs := s.toList
  let signed : Bool × List Char :=
    match cs with
    | '-' :: rest => (true, rest)
    | '+' :: rest => (false, rest)
    | _ => (false, cs)
  let body := signed.2
  let ip := body.takeWhile (fun c => c ≠ '.')
  let rest := body.dropWhile (fun c => c ≠ '.')
  let mag : Option Rat :=
    match rest with
    | [] => (natOfDigits? ip).map (fun n => (n : Rat))
    | _ :: fp =>
      if fp.any (fun c => c = '.') then none
      else if ip = [] ∧ fp = [] then none
      else if ip.all Char.isDigit ∧ fp.all Char.isDigit then
        some ((ip.foldl (fun a c => a * 10 + digitVal c) 0 : Nat) +
          (fp.foldl (fun a c => a * 10 + digitVal c) 0 : Nat) / ((10 : Rat) ^ fp.length))
      else none
  mag.map (fun v => if signed.1 then -v else v)

/-- Embeds `dtparser.parse(str(asof)).date()` on the ISO `YYYY-MM-DD`
strings this system stores; any other string (for example the empty
string written when the snapshot lacks a trading-day field) fails,
modelled as `none`. -/
def parseDate? (s : String) : Option Date :=
  match s.toList with
  | [y1, y2, y3, y4, '-', m1, m2, '-', d1, d2] =>
    if ([y1, y2, y3, y4, m1, m2, d1, d2].all Char.isDigit) then
      let y := ((digitVal y1 * 10 + digitVal y2) * 10 + digitVal y3) * 10 + digitVal y4
      let m := digitVal m1 * 10 + digitVal m2
      let d := digitVal d1 * 10 + digitVal d2
      if 1 ≤ m ∧ m ≤ 12 ∧ 1 ≤ d ∧ d ≤ 31 then some ⟨y, m, d⟩ else none
    else none
  | _ => none

/-- Python string disjunction `a or b` over optional string fields:
`None` and the empty string are falsy. -/
def pyOr (a b : Option String) : Option String :=
  match a with
  | some s => if s = "" then b else some s
  | none => b

/-- Python `a or b` where `b` is a string default (used for the
latest-trading-day chain that ends in `""`). -/
def orStr (a : Option String) (b : String) : String :=
  match a with
  | some s => if s = "" then b else s
  | none => b

/-- A row of the `prices_daily` table: `cache_price` inserts exactly
these three columns. -/
structure PriceRecord where
  symbol : String
  price : Rat
  asof : String
deriving DecidableEq, Repr

/-- Embeds `get_cached_price`: filter `prices_daily` by symbol, order by
`asof` descending, take the first row. The table is a list in insertion
order; on equal `asof` the most recently inserted row wins (a
deterministic tie-break, as the spec allows). -/
def get_cached_price (cache : List PriceRecord) (symbol : String) : Option PriceRecord :=
  cache.foldl (fun acc r =>
    if r.symbol = symbol then
      match acc with
      | none => some r
      | some best => if strLt r.asof best.asof then some best else some r
    else acc) none

/-- Embeds `cache_price`: insert-only append of a new row. -/
def cache_price (cache : List PriceRecord) (symbol : String) (price : Rat)
    (asof : String) : List PriceRecord :=
  cache ++ [⟨symbol, price, asof⟩]

/-- The fields of a decoded Alpha Vantage `GLOBAL_QUOTE` payload that the
code reads: `05. price`, `07. latest trading day`, `10. latest trading day`. -/
structure GlobalQuote where
  price05 : Option String := none
  latestDay07 : Option String := none
  latestDay10 : Option String := none
deriving DecidableEq, Repr

/-- A row of a daily time series: the code reads `4. close` and
`5. adjusted close`. -/
structure DailyRow where
  close4 : Option String := none
  adjClose5 : Option String := none
deriving DecidableEq, Repr

/-- A decoded JSON response body, restricted to the keys the code probes:
the three diagnostic signals, the `Global Quote` object and the
`Time Series (Daily)` mapping (date key to row; `some []` is an empty
dict, which Python treats as falsy). -/
structure Body where
  information : Option String := none
  note : Option String := none
  errorMessage : Option String := none
  globalQuote : Option GlobalQuote := none
  timeSeries : Option (List (String × DailyRow)) := none
deriving DecidableEq, Repr

/-- Outcome of one HTTP round trip: a transport-level failure
(`requests.get` raising, `raise_for_status`, or JSON decoding) or a
decoded body. -/
inductive HttpResult where
  | transportError : HttpResult
  | ok : Body → HttpResult
deriving DecidableEq, Repr

/-- The upstream provider as an oracle from the query `function` name to
the response of the single request this fetch would issue for it. -/
def Network : Type := String → HttpResult

/-- Error taxonomy of the quote client, one constructor per distinct
raise site in the Python code; the diagnostic constructors carry the
provider's message. -/
inductive FetchError where
  | authError : FetchError
  | transportError : FetchError
  | entitlementError : String → FetchError
  | rateLimitError : String → FetchError
  | upstreamError : String → FetchError
  | noDataError : FetchError
  | parseFailure : FetchError
deriving DecidableEq, Repr

/-- Embeds the inner `_call` helper: issue the request, fail on transport
errors, then inspect the body for the three diagnostic signals —
`Information` (entitlement), `Note` (rate limit), `Error Message`
(generic upstream error), in that order — before treating it as data. -/
def _call (net : Network) (func : String) : Except FetchError Body :=
  match net func with
  | .transportError => .error .transportError
  | .ok data =>
    match data.information with
    | some m => .error (.entitlementError m)
    | none =>
      match data.note with
      | some m => .error (.rateLimitError m)
      | none =>
        match data.errorMessage with
        | some m => .error (.upstreamError m)
        | none => .ok data

/-- Tier 1 of `fetch_price_alpha_vantage`: the `GLOBAL_QUOTE` snapshot.
Every exception inside the `try` block is swallowed, and a falsy price
field falls through, so the tier either yields a value or yields
nothing. The as-of date is `07. latest trading day` or
`10. latest trading day` or `""`. -/
def tier1 (net : Network) : Option (Rat × String) :=
  match _call net "GLOBAL_QUOTE" with
  | .error _ => none
  | .ok gq =>
    let g := gq.globalQuote.getD {}
    match g.price05 with
    | none => none
    | some px =>
      if px = "" then none
      else
        match pyFloat? px with
        | none => none
        | some v => some (v, orStr g.latestDay07 (orStr g.latestDay10 ""))

/-- Lexicographic maximum of the date keys of a series, the Python
`max(series.keys())`. -/
def maxKey : List (String × DailyRow) → String
  | [] => ""
  | kv :: rest => rest.foldl (fun acc p => if strLt acc p.1 then p.1 else acc) kv.1

/-- First value in an association list at a given key (a Python dict
indexed at a key it contains). -/
def lookupAssoc {α : Type} : List (String × α) → String → Option α
  | [], _ => none
  | (k, v) :: rest, key => if k = key then some v else lookupAssoc rest key

/-- Tier 2 of `fetch_price_alpha_vantage`: the unadjusted daily series.
Exceptions (including a missing `4. close` key or an unparseable close)
are swallowed; an absent or empty series falls through. -/
def tier2 (net : Network) : Option (Rat × String) :=
  match _call net "TIME_SERIES_DAILY" with
  | .error _ => none
  | .ok d =>
    match d.timeSeries with
    | none => none
    | some series =>
      if series = [] then none
      else
        let lastDate := maxKey series
        match ((lookupAssoc series lastDate).getD {}).close4 with
        | none => none
        | some s =>
          match pyFloat? s with
          | none => none
          | some price => some (price, lastDate)

/-- Tier 3 of `fetch_price_alpha_vantage`: the adjusted daily series, the
last resort whose failure propagates. No series (absent key or empty
dict) raises `No time series returned by Alpha Vantage`, embedded as
`noDataError`; the price is `5. adjusted close or 4. close` through
`float`, whose failure propagates as `parseFailure`. -/
def tier3 (net : Network) : Except FetchError (Rat × String) :=
  match _call net "TIME_SERIES_DAILY_ADJUSTED" with
  | .error e => .error e
  | .ok d2 =>
    match d2.timeSeries with
    | none => .error .noDataError
    | some series =>
      if series = [] then .error .noDataError
      else
        let lastDate := maxKey series
        let lastRow := (lookupAssoc series lastDate).getD {}
        match pyOr lastRow.adjClose5 lastRow.close4 with
        | none => .error .parseFailure
        | some s =>
          match pyFloat? s with
          | none => .error .parseFailure
          | some price => .ok (price, lastDate)

/-- Embeds `fetch_price_alpha_vantage`: fail with the missing-key error
before any request when no API key is configured, then try the three
query shapes in order. The second component is the trace of HTTP
requests actually issued (the `function` parameter of each). -/
def fetch_price_alpha_vantage (key : String) (net : Network) :
    Except FetchError (Rat × String) × List String :=
  if key = "" then (.error .authError, [])
  else
    match tier1 net with
    | some r => (.ok r, ["GLOBAL_QUOTE"])
    | none =>
      match tier2 net with
      | some r => (.ok r, ["GLOBAL_QUOTE", "TIME_SERIES_DAILY"])
      | none =>
        (tier3 net, ["GLOBAL_QUOTE", "TIME_SERIES_DAILY", "TIME_SERIES_DAILY_ADJUSTED"])

/-- The fetch-and-cache tail of `ensure_price`: call the quote client
(counted as one invocation), and on success append the fetched value to
the cache before returning it with `fetched_now = true`. On failure the
exception propagates and nothing is cached. The components are
(result, new cache, quote-client call counter). -/
def fetch_and_cache (key : String) (net : Network) (cache : List PriceRecord)
    (symbol : String) : Except FetchError (Rat × String × Bool) × List PriceRecord × Nat :=
  match (fetch_price_alpha_vantage key net).1 with
  | .error e => (.error e, cache, 1)
  | .ok (price, asof) => (.ok (price, asof, true), cache_price cache symbol price asof, 1)

/-- Embeds `ensure_price`: unless refreshing is forced, read the latest
cached row; if its as-of date parses and equals today, serve it from the
cache (`fetched_now = false`, zero quote-client calls). Otherwise fetch
and cache. `today` is `date.today()` at the time of the call. -/
def ensure_price (key : String) (net : Network) (today : Date)
    (cache : List PriceRecord) (symbol : String) (force_refresh : Bool) :
    Except FetchError (Rat × String × Bool) × List PriceRecord × Nat :=
  if force_refresh then fetch_and_cache key net cache symbol
  else
    match get_cached_price cache symbol with
    | none => fetch_and_cache key net cache symbol
    | some cached =>
      if parseDate? cached.asof = some today then
        (.ok (cached.price, cached.asof, false), cache, 0)
      else fetch_and_cache key net cache symbol

/-- Python dict assignment `d[k] = v` on an association list: overwrite
in place or append. -/
def insertAssoc {α : Type} : List (String × α) → String → α → List (String × α)
  | [], key, v => [(key, v)]
  | (k, w) :: rest, key, v =>
    if k = key then (key, v) :: rest else (k, w) :: insertAssoc rest key v

/-- State carried through the Overview update loop: the price cache
table, the `prices` and `last_asof` dicts, `calls_made`, the sequence of
`time.sleep` pauses performed (each entry a duration), and the
diagnostics shown via `st.error` (symbol and error). -/
structure BatchState where
  cache : List PriceRecord
  prices : List (String × Rat)
  last_asof : List (String × String)
  calls_made : Nat
  sleeps : List Nat
  errors : List (String × FetchError)
deriving DecidableEq, Repr

/-- One iteration of the Overview update loop for one symbol: on success
record the price and as-of date, and if the resolution actually hit the
API, bump `calls_made` and sleep 12 seconds; on failure record the
diagnostic and fall back to whatever stale cached row exists, without
re-fetching. A failure never stops the loop. -/
def updateStep (key : String) (netOf : String → Network) (today : Date)
    (force : Bool) (st : BatchState) (sym : String) : BatchState :=
  match ensure_price key (netOf sym) today st.cache sym force with
  | (Except.ok (price, asof, fetched_now), cache2, _) =>
    let st1 : BatchState :=
      { st with cache := cache2,
                prices := insertAssoc st.prices sym price,
                last_asof := insertAssoc st.last_asof sym asof }
    if fetched_now then
      { st1 with calls_made := st1.calls_made + 1, sleeps := st1.sleeps ++ [12] }
    else st1
  | (Except.error e, cache2, _) =>
    let st1 : BatchState :=
      { st with cache := cache2, errors := st.errors ++ [(sym, e)] }
    match get_cached_price st1.cache sym with
    | some c =>
      { st1 with prices := insertAssoc st1.prices sym c.price,
                 last_asof := insertAssoc st1.last_asof sym c.asof }
    | none => st1

/-- The whole `for sym in df["symbol"].tolist():` loop of the Overview
page, processing the symbols in order. -/
def updateLoop (key : String) (netOf : String → Network) (today : Date)
    (force : Bool) : BatchState → List String → BatchState
  | st, [] => st
  | st, sym :: rest => updateLoop key netOf today force (updateStep key netOf today force st sym) rest

/-- Warning shown when no key is configured and the batch resolved
nothing. -/
def noKeyMsg : String := "No Alpha Vantage key configured; cannot fetch live prices."

/-- Warning shown when a key is configured but the batch resolved
nothing. -/
def noFetchesMsg : String :=
  "No prices fetched (possibly rate limit or premium endpoint). Try again in ~60 seconds."

/-- The post-loop diagnostic of the Overview page: when the run made zero
API calls and resolved zero prices, warn, distinguishing a missing key
from failed fetches. -/
def batchWarning (key : String) (st : BatchState) : Option String :=
  if st.calls_made = 0 ∧ st.prices = [] then
    some (if key = "" then noKeyMsg else noFetchesMsg)
  else none

/-- A provider on which the snapshot tier succeeds: price `5`, latest
trading day `2026-10-12`. Used to evaluate concrete runs. -/
def netOK : Network := fun f =>
  if f = "GLOBAL_QUOTE" then
    .ok { globalQuote := some { price05 := some "5", latestDay07 := some "2026-10-12" } }
  else .transportError

/-- The series returned by the adjusted-daily tier of `netRL`. -/
def rlSeries : List (String × DailyRow) :=
  [("2026-10-09", { close4 := some "10", adjClose5 := some "11" }),
   ("2026-10-10", { close4 := some "20", adjClose5 := some "21" })]

/-- A provider that rate-limits the snapshot tier (`Note` field), reports
an error on the unadjusted daily tier, and serves the adjusted daily
series. -/
def netRL : Network := fun f =>
  if f = "GLOBAL_QUOTE" then .ok { note := some "rl" }
  else if f = "TIME_SERIES_DAILY" then .ok { errorMessage := some "bad" }
  else .ok { timeSeries := some rlSeries }

/-- A provider whose every request fails at the transport level. -/
def netBad : Network := fun _ => .transportError

/-- A provider whose snapshot reports price `123` as of `2026-10-10`. -/
def netFri : Network := fun f =>
  if f = "GLOBAL_QUOTE" then
    .ok { globalQuote := some { price05 := some "123", latestDay07 := some "2026-10-10" } }
  else .transportError

/-- A provider whose snapshot has a usable price but no latest-trading-day
field at all. -/
def netNoDay : Network := fun f =>
  if f = "GLOBAL_QUOTE" then
    .ok { globalQuote := some { price05 := some "123" } }
  else .transportError

/-- The batch state at the top of the Overview update loop: empty dicts,
zero calls, no sleeps, no diagnostics, over a given cache table. -/
def initState (cache : List PriceRecord) : BatchState := ⟨cache, [], [], 0, [], []⟩

end Portfolio

namespace Portfolio

theorem lookupAssoc_insertAssoc_self {α : Type} (l : List (String × α)) (k : String) (v : α) :
    lookupAssoc (insertAssoc l k v) k = some v := by
  induction l with
  | nil => simp [insertAssoc, lookupAssoc]
  | cons hd tl ih =>
    obtain ⟨k1, v1⟩ := hd
    by_cases h : k1 = k <;> simp [insertAssoc, lookupAssoc, h, ih]

theorem lookupAssoc_insertAssoc_ne {α : Type} (l : List (String × α)) (k1 k2 : String)
    (v : α) (h : k1 ≠ k2) :
    lookupAssoc (insertAssoc l k1 v) k2 = lookupAssoc l k2 := by
  induction l with
  | nil => simp [insertAssoc, lookupAssoc, h]
  | cons hd tl ih =>
    obtain ⟨k0, v0⟩ := hd
    by_cases h0 : k0 = k1
    · subst h0
      simp [insertAssoc, lookupAssoc, h]
    · simp [insertAssoc, lookupAssoc, h0, ih]

theorem updateStep_sleeps_calls (key : String) (netOf : String → Network) (today : Date)
    (force : Bool) (st : BatchState) (sym : String) :
    (updateStep key netOf today force st sym).sleeps =
      st.sleeps ++ List.replicate
        ((updateStep key netOf today force st sym).calls_made - st.calls_made) 12 ∧
    st.calls_made ≤ (updateStep key netOf today force st sym).calls_made ∧
    (updateStep key netOf today force st sym).calls_made ≤ st.calls_made + 1 := by
  rcases he : ensure_price key (netOf sym) today st.cache sym force with ⟨r, cache2, n⟩
  rcases r with e | ⟨p, a, f⟩
  · rcases hg : get_cached_price cache2 sym with _ | c <;>
      simp [updateStep, he, hg]
  · rcases f <;> simp [updateStep, he]

theorem updateLoop_sleeps_calls (key : String) (netOf : String → Network) (today : Date)
    (force : Bool) (syms : List String) :
    ∀ st : BatchState,
      (updateLoop key netOf today force st syms).sleeps =
        st.sleeps ++ List.replicate
          ((updateLoop key netOf today force st syms).calls_made - st.calls_made) 12 ∧
      st.calls_made ≤ (updateLoop key netOf today force st syms).calls_made ∧
      (updateLoop key netOf today force st syms).calls_made ≤ st.calls_made + syms.length := by
  induction syms with
  | nil => intro st; simp [updateLoop]
  | cons sym rest ih =>
    intro st
    obtain ⟨hs, hlo, hhi⟩ := updateStep_sleeps_calls key netOf today force st sym
    obtain ⟨hs2, hlo2, hhi2⟩ := ih (updateStep key netOf today force st sym)
    refine ⟨?_, ?_, ?_⟩
    · show (updateLoop key netOf today force (updateStep key netOf today force st sym) rest).sleeps = _
      rw [hs2, hs, List.append_assoc, ← List.replicate_add]
      have hcc : (updateStep key netOf today force st sym).calls_made - st.calls_made +
          ((updateLoop key netOf today force (updateStep key netOf today force st sym) rest).calls_made -
            (updateStep key netOf today force st sym).calls_made) =
          (updateLoop key netOf today force st (sym :: rest)).calls_made - st.calls_made := by
        show _ = (updateLoop key netOf today force (updateStep key netOf today force st sym) rest).calls_made - st.calls_made
        omega
      rw [hcc]
    · show st.calls_made ≤ (updateLoop key netOf today force (updateStep key netOf today force st sym) rest).calls_made
      omega
    · show (updateLoop key netOf today force (updateStep key netOf today force st sym) rest).calls_made ≤
        st.calls_made + (sym :: rest).length
      simp only [List.length_cons]
      omega

theorem updateStep_ok_fields (key : String) (netOf : String → Network) (today : Date)
    (force : Bool) (st : BatchState) (sym : String) (p : Rat) (a : String) (f : Bool)
    (c2 : List PriceRecord) (n : Nat)
    (he : ensure_price key (netOf sym) today st.cache sym force = (.ok (p, a, f), c2, n)) :
    (updateStep key netOf today force st sym).prices = insertAssoc st.prices sym p ∧
    (updateStep key netOf today force st sym).errors = st.errors := by
  rcases f <;> simp [updateStep, he]

theorem updateStep_error_fields (key : String) (netOf : String → Network) (today : Date)
    (force : Bool) (st : BatchState) (sym : String) (e : FetchError)
    (c2 : List PriceRecord) (n : Nat)
    (he : ensure_price key (netOf sym) today st.cache sym force = (.error e, c2, n)) :
    (updateStep key netOf today force st sym).cache = c2 ∧
    (updateStep key netOf today force st sym).errors = st.errors ++ [(sym, e)] ∧
    (∀ c, get_cached_price c2 sym = some c →
      (updateStep key netOf today force st sym).prices = insertAssoc st.prices sym c.price) := by
  rcases hg : get_cached_price c2 sym with _ | c <;>
    simp [updateStep, he, hg]

/-- Claim C1: for every symbol whose latest cached record has an as-of
date equal to the current calendar date, `ensure_price` with
`force_refresh = false` returns that record's price and as-of date with
`fetched_now = false` (served from cache), leaves the cache unchanged,
and never invokes the quote client (call counter 0) — the outcome is
the same whatever the network would answer. -/
theorem cache_hit_today_served_from_cache (key : String) (net : Network) (today : Date)
    (cache : List PriceRecord) (sym : String) (c : PriceRecord)
    (hc : get_cached_price cache sym = some c)
    (hd : parseDate? c.asof = some today) :
    ensure_price key net today cache sym false =
      (.ok (c.price, c.asof, false), cache, 0) := by
  simp [ensure_price, hc, hd]

/-- Closed instance of claim C1: a cache row for `AAPL` dated today is
served back untouched with zero quote-client calls, even though every
network request would fail. -/
theorem cache_hit_today_served_from_cache_witness :
    ensure_price "K" netBad ⟨2026, 10, 12⟩ [⟨"AAPL", 7, "2026-10-12"⟩] "AAPL" false =
      (.ok (7, "2026-10-12", false), [⟨"AAPL", 7, "2026-10-12"⟩], 0) :=
  cache_hit_today_served_from_cache "K" netBad ⟨2026, 10, 12⟩
    [⟨"AAPL", 7, "2026-10-12"⟩] "AAPL" ⟨"AAPL", 7, "2026-10-12"⟩ rfl rfl

/-- Claim C7: a latest cached record with an unparseable as-of date is
treated exactly as a cache miss: `ensure_price` with
`force_refresh = false` proceeds to the fetch-and-cache path, so the
parse failure is recovered locally and never surfaced. -/
theorem unparseable_cache_asof_treated_as_miss (key : String) (net : Network) (today : Date)
    (cache : List PriceRecord) (sym : String) (c : PriceRecord)
    (hc : get_cached_price cache sym = some c)
    (hp : parseDate? c.asof = none) :
    ensure_price key net today cache sym false = fetch_and_cache key net cache sym := by
  simp [ensure_price, hc, hp]

/-- Closed instance of claim C7: a cached row whose as-of column holds
`garbage` forces a fresh fetch, which succeeds and appends today's
quote. -/
theorem unparseable_cache_asof_treated_as_miss_witness :
    ensure_price "K" netOK ⟨2026, 10, 12⟩ [⟨"AAPL", 7, "garbage"⟩] "AAPL" false =
      fetch_and_cache "K" netOK [⟨"AAPL", 7, "garbage"⟩] "AAPL" :=
  unparseable_cache_asof_treated_as_miss "K" netOK ⟨2026, 10, 12⟩
    [⟨"AAPL", 7, "garbage"⟩] "AAPL" ⟨"AAPL", 7, "garbage"⟩ rfl rfl

/-- Counterexample to claim C5 as stated: with no cache record, on a
Saturday (`2026-10-12` standing for the current date) whose provider
snapshot reports Friday `2026-10-10` as the latest trading day, the
store gains one record whose as-of date is the provider's date, which
is not today's date — so the new record's as-of date is not, in
general, today's date. -/
theorem cache_miss_record_not_today_counterexample :
    ensure_price "K" netFri ⟨2026, 10, 12⟩ [] "AAPL" false =
      (.ok (123, "2026-10-10", true), [⟨"AAPL", 123, "2026-10-10"⟩], 1) ∧
    parseDate? "2026-10-10" ≠ some (⟨2026, 10, 12⟩ : Date) := by
  constructor
  · rfl
  · decide

/-- Claim C5, amended: for every symbol with no cache record,
`ensure_price` with `force_refresh = false` invokes the quote client
exactly once, and on success the cache store gains exactly one new
record whose as-of date is the provider-reported as-of date of the
fetch (not necessarily today's date), after which the price is
returned with `fetched_now = true` (not served from cache). -/
theorem cache_miss_single_fetch_appends_record (key : String) (net : Network) (today : Date)
    (cache : List PriceRecord) (sym : String)
    (hmiss : get_cached_price cache sym = none) :
    (ensure_price key net today cache sym false).2.2 = 1 ∧
    (∀ p a, (fetch_price_alpha_vantage key net).1 = .ok (p, a) →
      ensure_price key net today cache sym false =
        (.ok (p, a, true), cache ++ [⟨sym, p, a⟩], 1)) := by
  constructor
  · rcases hf : (fetch_price_alpha_vantage key net).1 with e | ⟨p, a⟩ <;>
      simp [ensure_price, hmiss, fetch_and_cache, hf]
  · intro p a hf
    simp [ensure_price, hmiss, fetch_and_cache, hf, cache_price]

/-- Closed instance of the amended claim C5: a cache miss leads to one
quote-client call and one appended record carrying the fetched as-of
date. -/
theorem cache_miss_single_fetch_appends_record_witness :
    (ensure_price "K" netOK ⟨2026, 10, 12⟩ [] "AAPL" false).2.2 = 1 ∧
    ensure_price "K" netOK ⟨2026, 10, 12⟩ [] "AAPL" false =
      (.ok (5, "2026-10-12", true), [⟨"AAPL", 5, "2026-10-12"⟩], 1) :=
  ⟨(cache_miss_single_fetch_appends_record "K" netOK ⟨2026, 10, 12⟩ [] "AAPL" rfl).1,
   (cache_miss_single_fetch_appends_record "K" netOK ⟨2026, 10, 12⟩ [] "AAPL" rfl).2
     5 "2026-10-12" rfl⟩

/-- Claim C8: with no API key configured, `fetch_price_alpha_vantage`
fails with the missing-key error before any network call: whatever the
network oracle, the result is the auth failure and the trace of issued
requests is empty, so all three tiers are short-circuited. -/
theorem missing_key_short_circuits_all_tiers (net : Network) :
    fetch_price_alpha_vantage "" net = (.error .authError, []) := rfl

/-- Claim C2: when tier 1 (`GLOBAL_QUOTE`) and tier 2
(`TIME_SERIES_DAILY`) both fall through (their errors swallowed), the
fetch tries all three query shapes in order; if the tier-3 adjusted
series is absent or empty the call fails with the no-data error, and if
it holds a series the call returns the maximum-date entry's price,
preferring the adjusted-close field and falling back to plain close
(the `pyOr` of the two fields). -/
theorem tier_fallback_to_adjusted_series (key : String) (net : Network) (d2 : Body)
    (hk : key ≠ "") (h1 : tier1 net = none) (h2 : tier2 net = none)
    (h3 : _call net "TIME_SERIES_DAILY_ADJUSTED" = .ok d2) :
    (fetch_price_alpha_vantage key net).2 =
      ["GLOBAL_QUOTE", "TIME_SERIES_DAILY", "TIME_SERIES_DAILY_ADJUSTED"] ∧
    ((d2.timeSeries = none ∨ d2.timeSeries = some []) →
      (fetch_price_alpha_vantage key net).1 = .error .noDataError) ∧
    (∀ series v, d2.timeSeries = some series → series ≠ [] →
      ((pyOr ((lookupAssoc series (maxKey series)).getD {}).adjClose5
             ((lookupAssoc series (maxKey series)).getD {}).close4).bind pyFloat? = some v) →
      (fetch_price_alpha_vantage key net).1 = .ok (v, maxKey series)) := by
  have hf : fetch_price_alpha_vantage key net =
      (tier3 net, ["GLOBAL_QUOTE", "TIME_SERIES_DAILY", "TIME_SERIES_DAILY_ADJUSTED"]) := by
    simp [fetch_price_alpha_vantage, hk, h1, h2]
  refine ⟨by rw [hf], ?_, ?_⟩
  · rintro (hts | hts) <;> rw [hf] <;> simp [tier3, h3, hts]
  · intro series v hts hne hv
    rw [hf]
    rcases hpo : pyOr ((lookupAssoc series (maxKey series)).getD {}).adjClose5
        ((lookupAssoc series (maxKey series)).getD {}).close4 with _ | s
    · rw [hpo] at hv
      simp at hv
    · rw [hpo] at hv
      simp only [Option.some_bind] at hv
      simp [tier3, h3, hts, hne, hpo, hv]

/-- Closed instance of claim C2: against a provider that rate-limits
tier 1 and errors tier 2, the fetch returns the adjusted close `21` of
the maximum date `2026-10-10` of the tier-3 series. -/
theorem tier_fallback_to_adjusted_series_witness :
    (fetch_price_alpha_vantage "K" netRL).1 = .ok (21, "2026-10-10") :=
  (tier_fallback_to_adjusted_series "K" netRL { timeSeries := some rlSeries }
      (by decide) rfl rfl rfl).2.2 rlSeries 21 rfl (by decide) rfl

/-- Claim C6: every HTTP round trip, on every tier, inspects the decoded
body for the three diagnostic signals before treating it as data —
`Information` fails the tier with the entitlement error, `Note` with
the rate-limit error, `Error Message` with the generic upstream error,
each carrying the provider's message — and a `Note` rate-limit signal
at tier 1 does not abort the fetch: tier 1 falls through and the tier-2
request (`TIME_SERIES_DAILY`) is issued. -/
theorem diagnostic_signals_checked_every_tier (net : Network) (func : String) (data : Body)
    (h : net func = .ok data) :
    (∀ m, data.information = some m → _call net func = .error (.entitlementError m)) ∧
    (∀ m, data.information = none → data.note = some m →
      _call net func = .error (.rateLimitError m)) ∧
    (∀ m, data.information = none → data.note = none → data.errorMessage = some m →
      _call net func = .error (.upstreamError m)) ∧
    (data.information = none → data.note = none → data.errorMessage = none →
      _call net func = .ok data) ∧
    (∀ key m, key ≠ "" → func = "GLOBAL_QUOTE" → data.information = none →
      data.note = some m →
      tier1 net = none ∧ "TIME_SERIES_DAILY" ∈ (fetch_price_alpha_vantage key net).2) := by
  refine ⟨?_, ?_, ?_, ?_, ?_⟩
  · intro m hm
    simp [_call, h, hm]
  · intro m hi hm
    simp [_call, h, hi, hm]
  · intro m hi hn hm
    simp [_call, h, hi, hn, hm]
  · intro hi hn hm
    simp [_call, h, hi, hn, hm]
  · intro key m hk hfunc hi hn
    subst hfunc
    have ht1 : tier1 net = none := by
      simp [tier1, _call, h, hi, hn]
    refine ⟨ht1, ?_⟩
    rcases h2 : tier2 net with _ | r <;>
      simp [fetch_price_alpha_vantage, hk, ht1, h2]

/-- Closed instance of claim C6: a tier-1 body carrying `Note` makes the
call fail with the rate-limit error carrying the message, and the fetch
still issues the tier-2 request. -/
theorem diagnostic_signals_checked_every_tier_witness :
    _call netRL "GLOBAL_QUOTE" = .error (.rateLimitError "rl") ∧
    "TIME_SERIES_DAILY" ∈ (fetch_price_alpha_vantage "K" netRL).2 :=
  ⟨(diagnostic_signals_checked_every_tier netRL "GLOBAL_QUOTE" { note := some "rl" } rfl).2.1
      "rl" rfl rfl,
   ((diagnostic_signals_checked_every_tier netRL "GLOBAL_QUOTE" { note := some "rl" } rfl).2.2.2.2
      "K" "rl" (by decide) rfl rfl rfl).2⟩

/-- Claim C10 (implicit in the code): when the tier-1 snapshot has a
usable price field but neither latest-trading-day field, the fetch
succeeds with the empty string as the as-of date (the `or ""` default),
and on a cache miss `ensure_price` writes that empty string verbatim as
the new record's as-of column. -/
theorem missing_latest_day_caches_empty_asof (key : String) (net : Network) (body : Body)
    (g : GlobalQuote) (px : String) (v : Rat) (today : Date)
    (cache : List PriceRecord) (sym : String)
    (hk : key ≠ "")
    (hn : net "GLOBAL_QUOTE" = .ok body)
    (hi : body.information = none) (hno : body.note = none)
    (hem : body.errorMessage = none)
    (hg : body.globalQuote = some g)
    (hpx : g.price05 = some px) (hv : pyFloat? px = some v)
    (h7 : g.latestDay07 = none) (h10 : g.latestDay10 = none)
    (hmiss : get_cached_price cache sym = none) :
    fetch_price_alpha_vantage key net = (.ok (v, ""), ["GLOBAL_QUOTE"]) ∧
    ensure_price key net today cache sym false =
      (.ok (v, "", true), cache ++ [⟨sym, v, ""⟩], 1) := by
  have hpxne : px ≠ "" := by
    intro hcontra
    rw [hcontra] at hv
    have : pyFloat? "" = none := rfl
    rw [this] at hv
    exact Option.noConfusion hv
  have ht1 : tier1 net = some (v, "") := by
    simp [tier1, _call, hn, hi, hno, hem, hg, hpx, hpxne, hv, orStr, h7, h10]
  have hf : fetch_price_alpha_vantage key net = (.ok (v, ""), ["GLOBAL_QUOTE"]) := by
    simp [fetch_price_alpha_vantage, hk, ht1]
  refine ⟨hf, ?_⟩
  simp [ensure_price, hmiss, fetch_and_cache, hf, cache_price]

/-- Closed instance of claim C10: a snapshot with price `123` and no
latest-trading-day field yields an empty as-of string, cached
verbatim. -/
theorem missing_latest_day_caches_empty_asof_witness :
    fetch_price_alpha_vantage "K" netNoDay = (.ok (123, ""), ["GLOBAL_QUOTE"]) ∧
    ensure_price "K" netNoDay ⟨2026, 10, 12⟩ [] "AAPL" false =
      (.ok (123, "", true), [⟨"AAPL", 123, ""⟩], 1) :=
  missing_latest_day_caches_empty_asof "K" netNoDay
    { globalQuote := some { price05 := some "123" } } { price05 := some "123" }
    "123" 123 ⟨2026, 10, 12⟩ [] "AAPL"
    (by decide) rfl rfl rfl rfl rfl rfl (by decide) rfl rfl rfl

/-- Claim C3: in the Overview update loop, a fixed 12-second
`time.sleep` happens after exactly those resolutions that made a real
upstream call (`fetched_now = true`) and never for a cache-served one:
per step, a fetched resolution appends one pause of 12 and a
cache-served one appends none; over a batch, if every one of the N
resolutions was a real upstream call (the call counter grew by N) the
run performs exactly N pauses of 12, and if none were (the counter is
unchanged, as when all were served from cache) it performs zero
pauses. -/
theorem batch_cooldown_pauses (key : String) (netOf : String → Network) (today : Date)
    (force : Bool) (syms : List String) (st0 : BatchState) :
    ((updateLoop key netOf today force st0 syms).calls_made = st0.calls_made + syms.length →
      (updateLoop key netOf today force st0 syms).sleeps =
        st0.sleeps ++ List.replicate syms.length 12) ∧
    ((updateLoop key netOf today force st0 syms).calls_made = st0.calls_made →
      (updateLoop key netOf today force st0 syms).sleeps = st0.sleeps) ∧
    (∀ st sym p a cache2 n,
      ensure_price key (netOf sym) today st.cache sym force = (.ok (p, a, true), cache2, n) →
      (updateStep key netOf today force st sym).sleeps = st.sleeps ++ [12]) ∧
    (∀ st sym p a cache2 n,
      ensure_price key (netOf sym) today st.cache sym force = (.ok (p, a, false), cache2, n) →
      (updateStep key netOf today force st sym).sleeps = st.sleeps) := by
  obtain ⟨hs, hlo, hhi⟩ := updateLoop_sleeps_calls key netOf today force syms st0
  refine ⟨?_, ?_, ?_, ?_⟩
  · intro h
    rw [hs, h, Nat.add_sub_cancel_left]
  · intro h
    rw [hs, h, Nat.sub_self]
    simp
  · intro st sym p a cache2 n he
    simp [updateStep, he]
  · intro st sym p a cache2 n he
    simp [updateStep, he]

/-- Closed instance of claim C3: a two-symbol batch over an empty cache,
where both resolutions hit the API, performs exactly two pauses of 12
seconds. -/
theorem batch_cooldown_pauses_witness :
    (updateLoop "K" (fun _ => netOK) ⟨2026, 10, 12⟩ false (initState []) ["A", "B"]).sleeps =
      (initState []).sleeps ++ List.replicate 2 12 :=
  (batch_cooldown_pauses "K" (fun _ => netOK) ⟨2026, 10, 12⟩ false ["A", "B"]
    (initState [])).1 (by decide)

/-- Claim C4: one symbol's failure never aborts the batch. If resolving
`x` fails with error `e` (leaving the cache unchanged) and resolving
`y` against that same cache succeeds with price `p`, then running the
loop over `[x, y]` records the diagnostic `(x, e)`, still processes `y`
and maps it to `p`, and — whenever any stale cached record for `x`
exists, today's or not — displays that record's price for `x` without
re-attempting the fetch. -/
theorem batch_partial_failure_continues (key : String) (netOf : String → Network)
    (today : Date) (force : Bool) (st : BatchState) (x y : String) (e : FetchError)
    (p : Rat) (a : String) (f : Bool) (cy : List PriceRecord) (m : Nat)
    (hxy : x ≠ y)
    (hx : ensure_price key (netOf x) today st.cache x force = (.error e, st.cache, 1))
    (hy : ensure_price key (netOf y) today st.cache y force = (.ok (p, a, f), cy, m)) :
    lookupAssoc (updateLoop key netOf today force st [x, y]).prices y = some p ∧
    (updateLoop key netOf today force st [x, y]).errors = st.errors ++ [(x, e)] ∧
    (∀ c, get_cached_price st.cache x = some c →
      lookupAssoc (updateLoop key netOf today force st [x, y]).prices x = some c.price) := by
  have hyx : y ≠ x := fun hcontra => hxy hcontra.symm
  obtain ⟨hc1, he1, hp1⟩ :=
    updateStep_error_fields key netOf today force st x e st.cache 1 hx
  have hy2 : ensure_price key (netOf y) today
      (updateStep key netOf today force st x).cache y force = (.ok (p, a, f), cy, m) := by
    rw [hc1]
    exact hy
  obtain ⟨hp2, he2⟩ :=
    updateStep_ok_fields key netOf today force (updateStep key netOf today force st x)
      y p a f cy m hy2
  have hloop : updateLoop key netOf today force st [x, y] =
      updateStep key netOf today force (updateStep key netOf today force st x) y := by
    simp [updateLoop]
  refine ⟨?_, ?_, ?_⟩
  · rw [hloop, hp2]
    exact lookupAssoc_insertAssoc_self _ y p
  · rw [hloop, he2, he1]
  · intro c hc
    rw [hloop, hp2, lookupAssoc_insertAssoc_ne _ y x p hyx, hp1 c hc]
    exact lookupAssoc_insertAssoc_self st.prices x c.price

/-- Closed instance of claim C4: symbol `X` fails at the transport level
and falls back to its stale January cache row, symbol `Y` still
resolves to `5`, and the diagnostic names `X` with its error. -/
theorem batch_partial_failure_continues_witness :
    lookupAssoc (updateLoop "K" (fun s => if s = "X" then netBad else netOK)
      ⟨2026, 10, 12⟩ false (initState [⟨"X", 3, "2026-01-01"⟩]) ["X", "Y"]).prices "Y" =
        some 5 ∧
    (updateLoop "K" (fun s => if s = "X" then netBad else netOK)
      ⟨2026, 10, 12⟩ false (initState [⟨"X", 3, "2026-01-01"⟩]) ["X", "Y"]).errors =
        [("X", FetchError.transportError)] ∧
    lookupAssoc (updateLoop "K" (fun s => if s = "X" then netBad else netOK)
      ⟨2026, 10, 12⟩ false (initState [⟨"X", 3, "2026-01-01"⟩]) ["X", "Y"]).prices "X" =
        some 3 := by
  obtain ⟨h1, h2, h3⟩ := batch_partial_failure_continues "K"
    (fun s => if s = "X" then netBad else netOK) ⟨2026, 10, 12⟩ false
    (initState [⟨"X", 3, "2026-01-01"⟩]) "X" "Y" FetchError.transportError
    5 "2026-10-12" true [⟨"X", 3, "2026-01-01"⟩, ⟨"Y", 5, "2026-10-12"⟩] 1
    (by decide) rfl rfl
  exact ⟨h1, h2, h3 ⟨"X", 3, "2026-01-01"⟩ rfl⟩

/-- Claim C9: after a batch run that made zero real upstream calls and
resolved zero prices, the Overview page warns, distinguishing the cause:
the no-credential message when no API key is configured, otherwise the
all-fetches-failed (rate limit or entitlement) message. -/
theorem batch_zero_success_warning_by_cause (key : String) (netOf : String → Network)
    (today : Date) (force : Bool) (syms : List String) (st0 : BatchState)
    (h0 : (updateLoop key netOf today force st0 syms).calls_made = 0)
    (h1 : (updateLoop key netOf today force st0 syms).prices = []) :
    batchWarning key (updateLoop key netOf today force st0 syms) =
      some (if key = "" then noKeyMsg else noFetchesMsg) := by
  simp [batchWarning, h0, h1]

/-- Closed instance of claim C9: with no key configured, a run over one
symbol and an empty cache resolves nothing and surfaces the
no-credential warning. -/
theorem batch_zero_success_warning_by_cause_witness :
    batchWarning "" (updateLoop "" (fun _ => netBad) ⟨2026, 10, 12⟩ false
      (initState []) ["A"]) = some noKeyMsg :=
  batch_zero_success_warning_by_cause "" (fun _ => netBad) ⟨2026, 10, 12⟩ false
    ["A"] (initState []) (by decide) (by decide)

end Portfolio
